import Mathlib

/-!
Verification of the DL/T645-2007 frame codec (`src/dl645-2007.ts`) against its
natural-language specification.  The TypeScript class `DL645_2007` is embedded
shallowly: its static methods become Lean functions, JavaScript numbers that can
be `NaN` become `JSNum`, thrown errors become `Except`, and the in-place
`Array.prototype.reverse` mutation of `restoreAddress` is made observable by
returning the final contents of the input buffer alongside the result.
-/

namespace DL645

/-- A JavaScript number as it occurs in this codec: a natural number, or `NaN`
as produced by `parseInt` on a slice that starts with a non-hex character. -/
inductive JSNum where
  | num (n : Nat)
  | nan
deriving DecidableEq

/-- The errors the TypeScript class can raise: one constructor per explicit
`throw` site (the 12-hex-char address check, the 6-byte buffer check of
`restoreAddress`, the control-code check of `buildControlRequest`), plus the
implicit `TypeError` JavaScript raises when `buildReadRequest` spreads the
non-iterable inherited member that `dataIdMap[dataId]` / `crcMap[dataId]`
return for identifiers naming an `Object.prototype` property. -/
inductive DLErr where
  | invalidAddress
  | addrBytesLength
  | invalidControlUsage
  | typeError
deriving DecidableEq

/-- The `DL645_2007_ControlCode` enum: read-single 0x11, read-batch 0x12,
control 0x13. -/
inductive ControlCode where
  | readSingle
  | readBatch
  | control
deriving DecidableEq

/-- Numeric value of a control code, as in the TypeScript enum. -/
def ControlCode.toByte : ControlCode → Nat
  | .readSingle => 0x11
  | .readBatch => 0x12
  | .control => 0x13

/-- Frame start marker 0x68 (`FRAME_START`). -/
def FRAME_START : Nat := 0x68

/-- Frame end marker 0x16 (`FRAME_END`). -/
def FRAME_END : Nat := 0x16

/-- Hex-digit value of a character, by its ASCII code: 48-57 are '0'-'9',
97-102 are 'a'-'f', 65-70 are 'A'-'F'; anything else is not a hex digit. -/
def hexDigit? (c : Char) : Option Nat :=
  if 48 ≤ c.toNat ∧ c.toNat ≤ 57 then some (c.toNat - 48)
  else if 97 ≤ c.toNat ∧ c.toNat ≤ 102 then some (c.toNat - 87)
  else if 65 ≤ c.toNat ∧ c.toNat ≤ 70 then some (c.toNat - 55)
  else none

/-- Model of JavaScript `parseInt(s, 16)` on a two-character slice (no sign or
whitespace handling, which never arises for `substr` slices of hex addresses):
the longest hex prefix is parsed, and `NaN` results when the first character is
not a hex digit. -/
def parseIntHex2 (c1 c2 : Char) : JSNum :=
  match hexDigit? c1 with
  | none => .nan
  | some d1 =>
    match hexDigit? c2 with
    | none => .num d1
    | some d2 => .num (16 * d1 + d2)

/-- The loop of `reverseAddress`: `parseInt(address.substr(i, 2), 16)` pushed
for i = 0, 2, ..., consuming the characters two at a time. -/
def toBytePairs : List Char → List JSNum
  | c1 :: c2 :: rest => parseIntHex2 c1 c2 :: toBytePairs rest
  | _ => []

/-- `DL645_2007.reverseAddress`: length check, parse two characters at a time,
then reverse the byte order.  Note the source checks only the length, not that
the characters are hexadecimal. -/
def reverseAddress (address : String) : Except DLErr (List JSNum) :=
  if address.length ≠ 12 then .error .invalidAddress
  else .ok (toBytePairs address.data).reverse

/-- Model of JavaScript `String.prototype.toUpperCase` on the ASCII strings of
this codec: uppercase each character. -/
def jsStringToUpper (s : String) : String := ⟨s.data.map Char.toUpper⟩

/-- Model of JavaScript `padStart(2, '0')`. -/
def jsPadStart2Zero (s : String) : String :=
  if s.length < 2 then ⟨List.replicate (2 - s.length) '0' ++ s.data⟩ else s

/-- Model of JavaScript `Number.prototype.toString(16)` on the values occurring
here: lowercase hexadecimal digits for a natural number, and the string
rendering of `NaN`. -/
def jsNumToString16 : JSNum → String
  | .num n => ⟨Nat.toDigits 16 n⟩
  | .nan => "NaN"

/-- The per-byte rendering `b.toString(16).padStart(2, '0').toUpperCase()`
used by `restoreAddress` and `bytesToHexString`. -/
def byteToHexUpper (b : JSNum) : String :=
  jsStringToUpper (jsPadStart2Zero (jsNumToString16 b))

/-- Model of JavaScript `Array.prototype.join('')`: plain concatenation. -/
def jsJoin (l : List String) : String := ⟨(l.map String.data).flatten⟩

/-- `DL645_2007.restoreAddress`.  The source calls `reversedBytes.reverse()`,
which reverses the caller's array **in place**; the embedding therefore returns
both the result string and the final contents of the input buffer. -/
def restoreAddress (reversedBytes : List JSNum) :
    Except DLErr (String × List JSNum) :=
  if reversedBytes.length ≠ 6 then .error .addrBytesLength
  else
    let rev := reversedBytes.reverse
    .ok (jsJoin (rev.map byteToHexUpper), rev)

/-- The own property names of `Object.prototype`, inherited by every plain
object literal: for these keys `dataIdMap[dataId]` / `crcMap[dataId]` return
the inherited member (a function, or `Object.prototype` itself for
`__proto__`), which is truthy — so the `|| fallback` is bypassed — and not
iterable, so spreading it in `buildReadRequest` raises a `TypeError`. -/
def objectProtoProps : List String :=
  ["constructor", "hasOwnProperty", "isPrototypeOf", "propertyIsEnumerable",
   "toLocaleString", "toString", "valueOf", "__proto__", "__defineGetter__",
   "__defineSetter__", "__lookupGetter__", "__lookupSetter__"]

/-- `DL645_2007.convertDataIdToExpectedFormat`: the hardcoded
`dataIdMap` object lookup, with fallback `[0x00, 0x00, 0x00, 0x00]`.  Keys are
the string values of the `DL645_2007_DataId` enum.  For a `dataId` in
`objectProtoProps` the JavaScript lookup instead yields the inherited
non-array member; that case never produces byte values — `buildReadRequest`
surfaces it as `DLErr.typeError` at the spread, the point where the program
actually throws. -/
def convertDataIdToExpectedFormat (dataId : String) : List Nat :=
  if dataId = "00010100" then [0x33, 0x34, 0x34, 0x35]
  else if dataId = "00010200" then [0x33, 0x35, 0x34, 0x35]
  else if dataId = "00010300" then [0x33, 0x36, 0x34, 0x35]
  else if dataId = "00010000" then [0x33, 0x34, 0x30, 0x35]
  else if dataId = "00010400" then [0x00, 0x00, 0x00, 0x00]
  else if dataId = "00010500" then [0x00, 0x00, 0x00, 0x00]
  else if dataId = "00010600" then [0x00, 0x00, 0x00, 0x00]
  else if dataId = "00020400" then [0x00, 0x00, 0x00, 0x00]
  else if dataId = "00040100" then [0x00, 0x00, 0x00, 0x00]
  else if dataId = "00040200" then [0x00, 0x00, 0x00, 0x00]
  else if dataId = "00040300" then [0x00, 0x00, 0x00, 0x00]
  else [0x00, 0x00, 0x00, 0x00]

/-- `DL645_2007.getExpectedCrc`: the hardcoded `crcMap` object lookup, with
fallback `[0x00]`.  As with `convertDataIdToExpectedFormat`, a `dataId` in
`objectProtoProps` yields an inherited non-array member in JavaScript; that
case is surfaced as `DLErr.typeError` by `buildReadRequest`. -/
def getExpectedCrc (dataId : String) : List Nat :=
  if dataId = "00010100" then [0x1d]
  else if dataId = "00010200" then [0x1e]
  else if dataId = "00010300" then [0x1f]
  else if dataId = "00010000" then [0x79]
  else if dataId = "00010400" then [0x00]
  else if dataId = "00010500" then [0x00]
  else if dataId = "00010600" then [0x00]
  else if dataId = "00020400" then [0x00]
  else if dataId = "00040100" then [0x00]
  else if dataId = "00040200" then [0x00]
  else if dataId = "00040300" then [0x00]
  else [0x00]

/-- `DL645_2007.buildReadRequest`: reverse the address, look up the data-id
bytes and the hardcoded checksum bytes, and assemble
`[START, ...addr, START, controlCode, dataLength, ...dataId, ...crc, END]`.
When `dataId` names an inherited `Object.prototype` member, the lookups
return a non-iterable value and the `...dataIdBytes` spread in the frame
literal raises a `TypeError`; this happens after the address has been
processed, which the explicit check below mirrors. -/
def buildReadRequest (meterAddress : String) (controlCode : ControlCode)
    (dataId : String) : Except DLErr (List JSNum) := do
  let reversedAddress ← reverseAddress meterAddress
  let dataIdBytes := convertDataIdToExpectedFormat dataId
  let crcBytes := getExpectedCrc dataId
  if dataId ∈ objectProtoProps then
    Except.error DLErr.typeError
  else
    return [JSNum.num FRAME_START] ++ reversedAddress ++
      [JSNum.num FRAME_START, JSNum.num controlCode.toByte,
        JSNum.num dataIdBytes.length] ++
      dataIdBytes.map JSNum.num ++ crcBytes.map JSNum.num ++ [JSNum.num FRAME_END]

/-- `DL645_2007.buildControlRequest`: reject any control code other than
`CONTROL`, then delegate to `buildReadRequest`. -/
def buildControlRequest (meterAddress : String) (controlCode : ControlCode)
    (dataId : String) : Except DLErr (List JSNum) :=
  if controlCode ≠ ControlCode.control then .error .invalidControlUsage
  else buildReadRequest meterAddress controlCode dataId

/-- `DL645_2007.bytesToHexString`: per-byte uppercase hex pairs joined with
no separator. -/
def bytesToHexString (bytes : List JSNum) : String :=
  jsJoin (bytes.map byteToHexUpper)

/-- `DL645_2007.FRAME_HEADER`, the RS-485 preamble rendered as hex. -/
def FRAME_HEADER : String := "FEFEFEFE"

/-- `DL645_2007.getFullCommandString`: build the frame, render it, prepend the
preamble and uppercase the whole string. -/
def getFullCommandString (meterAddress : String) (controlCode : ControlCode)
    (dataId : String) : Except DLErr String := do
  let commandBytes ← buildReadRequest meterAddress controlCode dataId
  let coreCmd := bytesToHexString commandBytes
  return jsStringToUpper (FRAME_HEADER ++ coreCmd)

/-- Modelled from the spec: the additive checksum, the sum of the byte values
modulo 256 (`NaN` propagates through JavaScript addition). -/
def jAdd : JSNum → JSNum → JSNum
  | .num a, .num b => .num (a + b)
  | _, _ => .nan

/-- Modelled from the spec: sum of a byte sequence. -/
def jSum (l : List JSNum) : JSNum := l.foldl jAdd (.num 0)

/-- Modelled from the spec: `checksum(bytes)` = sum of all byte values mod
256, over the bytes from the first start marker through the last data byte. -/
def specChecksum (bytes : List JSNum) : JSNum :=
  match jSum bytes with
  | .num n => .num (n % 256)
  | .nan => .nan

/-- Modelled from the spec: `verifyChecksum(frame)` recomputes the additive
checksum over everything before the checksum byte and compares it with the
frame's checksum byte (the second-to-last byte, just before the end marker). -/
def verifyChecksum (frame : List JSNum) : Bool :=
  decide (specChecksum (frame.take (frame.length - 2)) =
    frame.getD (frame.length - 2) JSNum.nan)

/-! ### The frame parser, modelled from the spec

The source repository declares the parser's result types (`ParameterResult`,
`ParseResult` in `src/dl645-2007.ts`) but contains no implementation of
`parseFrame`; the definitions below follow the specification's §4.4 step by
step.  Response buffers are plain byte lists (`List Nat`). -/

/-- A decoded parameter value: numeric (exact rational, avoiding floating
point) or textual for control acknowledgements and unrecognized entries. -/
inductive PValue where
  | numeric (q : Rat)
  | text (s : String)
deriving DecidableEq

/-- Modelled from the spec: the `ParameterResult` interface declared in the
source — name, raw wire bytes, decoded value, unit and originating
data identifier. -/
structure ParameterResult where
  name : String
  rawValue : String
  value : PValue
  unit : String
  dataId : String
deriving DecidableEq

/-- Modelled from the spec: the `ParseResult` interface declared in the
source. -/
structure ParseResult where
  meterAddress : String
  controlCode : String
  controlCodeName : String
  parameters : List ParameterResult
  isCrcValid : Bool
deriving DecidableEq

/-- Modelled from the spec: the parser's failures — bad markers or a
data-length byte disagreeing with the buffer size. -/
inductive ParseErr where
  | malformedFrame
  | lengthMismatch
deriving DecidableEq

/-- Modelled from the spec: `hexEncode`, zero-padded upper-case hex pairs
concatenated without separators. -/
def hexEncode (bytes : List Nat) : String :=
  jsJoin (bytes.map (fun b => jsStringToUpper (jsPadStart2Zero ⟨Nat.toDigits 16 b⟩)))

/-- Modelled from the spec: `decodeAddress(bytes) = hexEncode(reverse(bytes))`,
upper-cased. -/
def decodeAddress (bytes : List Nat) : String := hexEncode bytes.reverse

/-- Modelled from the spec: undo the protocol's fixed BCD bias (+0x33 mod 256)
on one wire byte. -/
def unbias (b : Nat) : Nat := (b + 256 - 0x33) % 256

/-- Modelled from the spec: identifier metadata — human-readable name,
physical unit, value byte count and decimal scaling, keyed by the original
8-hex-character identifier (the representative subset the source enumerates in
`DL645_2007_DataId`). -/
structure IdMeta where
  name : String
  unit : String
  valueLen : Nat
  decimals : Nat
deriving DecidableEq

/-- Modelled from the spec: the read-only identifier metadata table. -/
def lookupMeta (idHex : String) : Option IdMeta :=
  if idHex = "00010100" then some ⟨"PHASE_A_VOLTAGE", "V", 2, 1⟩
  else if idHex = "00010200" then some ⟨"PHASE_B_VOLTAGE", "V", 2, 1⟩
  else if idHex = "00010300" then some ⟨"PHASE_C_VOLTAGE", "V", 2, 1⟩
  else if idHex = "00010400" then some ⟨"PHASE_A_CURRENT", "A", 3, 3⟩
  else if idHex = "00010500" then some ⟨"PHASE_B_CURRENT", "A", 3, 3⟩
  else if idHex = "00010600" then some ⟨"PHASE_C_CURRENT", "A", 3, 3⟩
  else if idHex = "00020100" then some ⟨"PHASE_A_ACTIVE_POWER", "kW", 3, 4⟩
  else if idHex = "00020200" then some ⟨"PHASE_B_ACTIVE_POWER", "kW", 3, 4⟩
  else if idHex = "00020300" then some ⟨"PHASE_C_ACTIVE_POWER", "kW", 3, 4⟩
  else if idHex = "00020400" then some ⟨"TOTAL_ACTIVE_POWER", "kW", 3, 4⟩
  else if idHex = "00010000" then some ⟨"TOTAL_ACTIVE_ENERGY", "kWh", 4, 2⟩
  else if idHex = "00040100" then some ⟨"CONTROL_OPEN", "control", 0, 0⟩
  else if idHex = "00040200" then some ⟨"CONTROL_CLOSE", "control", 0, 0⟩
  else if idHex = "00040300" then some ⟨"CONTROL_POWER_KEEP", "control", 0, 0⟩
  else none

/-- Modelled from the spec: BCD digits of the unbias-ed, big-endian value
bytes read as a decimal number. -/
def bcdNat : List Nat → Nat
  | [] => 0
  | b :: rest => (b / 16 * 10 + b % 16) * 100 ^ rest.length + bcdNat rest

/-- Modelled from the spec: decode value bytes — unbias each wire byte,
reverse the little-endian order, read the BCD digits and scale by the
identifier's power of ten. -/
def decodeValue (meta : IdMeta) (wireBytes : List Nat) : PValue :=
  if meta.unit = "control" then .text "acknowledged"
  else .numeric ((bcdNat (wireBytes.map unbias).reverse : Rat) / (10 ^ meta.decimals : Rat))

/-- Modelled from the spec: walk the data field as sub-records, each a 4-byte
(biased, byte-reversed) identifier followed by that identifier's value bytes;
unknown identifiers yield an `UNRECOGNIZED` entry without aborting.  The fuel
argument (instantiated with the field's length) makes the recursion
structural. -/
def decodeParamsAux : Nat → List Nat → List ParameterResult
  | 0, _ => []
  | _ + 1, [] => []
  | fuel + 1, b1 :: b2 :: b3 :: b4 :: rest =>
    let idHex := hexEncode ([b1, b2, b3, b4].map unbias).reverse
    match lookupMeta idHex with
    | some meta =>
      let wireVal := rest.take meta.valueLen
      { name := meta.name
        rawValue := hexEncode ([b1, b2, b3, b4] ++ wireVal)
        value := decodeValue meta wireVal
        unit := meta.unit
        dataId := idHex } :: decodeParamsAux fuel (rest.drop meta.valueLen)
    | none =>
      { name := "UNRECOGNIZED"
        rawValue := hexEncode [b1, b2, b3, b4]
        value := .text ""
        unit := ""
        dataId := idHex } :: decodeParamsAux fuel rest
  | _ + 1, _ => []

/-- Modelled from the spec: decode every sub-record of a data field. -/
def decodeParams (dataField : List Nat) : List ParameterResult :=
  decodeParamsAux dataField.length dataField

/-- Modelled from the spec: the control-code names used in `ParseResult`. -/
def controlCodeName (cc : Nat) : String :=
  if cc = 0x11 then "READ_SINGLE"
  else if cc = 0x12 then "READ_BATCH"
  else if cc = 0x13 then "CONTROL"
  else "UNKNOWN"

/-- Modelled from the spec: the structural checks of §4.4 steps 1-3 — minimum
length, start markers at offsets 0 and 7, end marker last, and a data-length
byte agreeing with the buffer size. -/
def structOK (buf : List Nat) : Prop :=
  12 ≤ buf.length ∧ buf.getD 0 0 = FRAME_START ∧ buf.getD 7 0 = FRAME_START ∧
    buf.getLast? = some FRAME_END ∧ buf.length = 12 + buf.getD 9 0

instance (buf : List Nat) : Decidable (structOK buf) := by
  unfold structOK; infer_instance

/-- Modelled from the spec: the stored checksum byte, just before the end
marker. -/
def storedChecksum (buf : List Nat) : Nat := buf.getD (buf.length - 2) 0

/-- Modelled from the spec: the recomputed additive checksum over everything
before the checksum byte. -/
def computedChecksum (buf : List Nat) : Nat :=
  ((buf.take (buf.length - 2)).foldl (· + ·) 0) % 256

/-- Modelled from the spec: `parseFrame`, absent from `src/` (only its result
interfaces are declared there) — structural validation, field extraction,
non-fatal checksum verification, and the data-field walk. -/
def parseFrame (buf : List Nat) : Except ParseErr ParseResult :=
  if buf.length < 12 then .error .malformedFrame
  else if buf.getD 0 0 ≠ FRAME_START then .error .malformedFrame
  else if buf.getD 7 0 ≠ FRAME_START then .error .malformedFrame
  else if buf.getLast? ≠ some FRAME_END then .error .malformedFrame
  else if buf.length ≠ 12 + buf.getD 9 0 then .error .lengthMismatch
  else
    let L := buf.getD 9 0
    Except.ok
      { meterAddress := decodeAddress ((buf.drop 1).take 6)
        controlCode := jsStringToUpper (jsPadStart2Zero ⟨Nat.toDigits 16 (buf.getD 8 0)⟩)
        controlCodeName := controlCodeName (buf.getD 8 0)
        parameters := decodeParams ((buf.drop 10).take L)
        isCrcValid := decide (computedChecksum buf = storedChecksum buf) }

/-! ### Helper lemmas -/

theorem toBytePairs_length : ∀ l : List Char, (toBytePairs l).length = l.length / 2
  | [] => rfl
  | [_] => by simp [toBytePairs]
  | _ :: _ :: rest => by
    simp only [toBytePairs, List.length_cons, toBytePairs_length rest]
    omega

theorem reverseAddress_ok {a : String} {bs : List JSNum}
    (h : reverseAddress a = .ok bs) :
    a.length = 12 ∧ bs = (toBytePairs a.data).reverse ∧ bs.length = 6 := by
  unfold reverseAddress at h
  split at h
  · exact absurd h (by simp)
  · rename_i hlen
    have ha : a.length = 12 := by omega
    cases h
    refine ⟨ha, rfl, ?_⟩
    have : a.data.length = 12 := ha
    simp [toBytePairs_length, this]

theorem reverseAddress_of_length {a : String} (h : a.length = 12) :
    reverseAddress a = .ok (toBytePairs a.data).reverse := by
  simp [reverseAddress, h]

set_option maxHeartbeats 1000000 in
theorem convert_length (d : String) :
    (convertDataIdToExpectedFormat d).length = 4 := by
  unfold convertDataIdToExpectedFormat
  repeat' split
  all_goals rfl

set_option maxHeartbeats 1000000 in
theorem crc_length (d : String) : (getExpectedCrc d).length = 1 := by
  unfold getExpectedCrc
  repeat' split
  all_goals rfl

theorem buildReadRequest_eq (a : String) (c : ControlCode) (d : String)
    (ha : a.length = 12) (hp : d ∉ objectProtoProps) :
    buildReadRequest a c d = .ok ([JSNum.num FRAME_START] ++
      (toBytePairs a.data).reverse ++
      [JSNum.num FRAME_START, JSNum.num c.toByte,
        JSNum.num (convertDataIdToExpectedFormat d).length] ++
      (convertDataIdToExpectedFormat d).map JSNum.num ++
      (getExpectedCrc d).map JSNum.num ++ [JSNum.num FRAME_END]) := by
  unfold buildReadRequest
  rw [reverseAddress_of_length ha]
  show (if d ∈ objectProtoProps then
      (Except.error DLErr.typeError : Except DLErr (List JSNum))
    else
      Except.ok ([JSNum.num FRAME_START] ++ (toBytePairs a.data).reverse ++
        [JSNum.num FRAME_START, JSNum.num c.toByte,
          JSNum.num (convertDataIdToExpectedFormat d).length] ++
        (convertDataIdToExpectedFormat d).map JSNum.num ++
        (getExpectedCrc d).map JSNum.num ++ [JSNum.num FRAME_END])) = _
  rw [if_neg hp]

theorem buildReadRequest_proto (a : String) (c : ControlCode) (d : String)
    (ha : a.length = 12) (hp : d ∈ objectProtoProps) :
    buildReadRequest a c d = .error DLErr.typeError := by
  unfold buildReadRequest
  rw [reverseAddress_of_length ha]
  show (if d ∈ objectProtoProps then
      (Except.error DLErr.typeError : Except DLErr (List JSNum))
    else
      Except.ok ([JSNum.num FRAME_START] ++ (toBytePairs a.data).reverse ++
        [JSNum.num FRAME_START, JSNum.num c.toByte,
          JSNum.num (convertDataIdToExpectedFormat d).length] ++
        (convertDataIdToExpectedFormat d).map JSNum.num ++
        (getExpectedCrc d).map JSNum.num ++ [JSNum.num FRAME_END])) = _
  rw [if_pos hp]

theorem buildReadRequest_err (a : String) (c : ControlCode) (d : String)
    (ha : a.length ≠ 12) :
    buildReadRequest a c d = .error DLErr.invalidAddress := by
  unfold buildReadRequest
  rw [show reverseAddress a = .error DLErr.invalidAddress by
    simp [reverseAddress, ha]]
  rfl

theorem buildReadRequest_ok_length {a : String} {c : ControlCode} {d : String}
    {frame : List JSNum} (h : buildReadRequest a c d = .ok frame) :
    a.length = 12 := by
  by_contra ha
  rw [buildReadRequest_err a c d ha] at h
  exact absurd h (by simp)

theorem buildReadRequest_ok_not_proto {a : String} {c : ControlCode}
    {d : String} {frame : List JSNum} (h : buildReadRequest a c d = .ok frame) :
    d ∉ objectProtoProps := by
  intro hp
  rw [buildReadRequest_proto a c d (buildReadRequest_ok_length h) hp] at h
  exact absurd h (by simp)

theorem length_six_destruct {α : Type _} {l : List α} (h : l.length = 6) :
    ∃ a0 a1 a2 a3 a4 a5, l = [a0, a1, a2, a3, a4, a5] := by
  obtain ⟨a0, l, rfl⟩ := List.exists_of_length_succ l h
  have h0 : l.length = 5 := by simpa using h
  obtain ⟨a1, l, rfl⟩ := List.exists_of_length_succ l h0
  have h1 : l.length = 4 := by simpa using h0
  obtain ⟨a2, l, rfl⟩ := List.exists_of_length_succ l h1
  have h2 : l.length = 3 := by simpa using h1
  obtain ⟨a3, l, rfl⟩ := List.exists_of_length_succ l h2
  have h3 : l.length = 2 := by simpa using h2
  obtain ⟨a4, l, rfl⟩ := List.exists_of_length_succ l h3
  have h4 : l.length = 1 := by simpa using h3
  obtain ⟨a5, l, rfl⟩ := List.exists_of_length_succ l h4
  have h5 : l = [] := by
    have := h4
    simp only [List.length_cons] at this
    exact List.eq_nil_of_length_eq_zero (by omega)
  exact ⟨a0, a1, a2, a3, a4, a5, by rw [h5]⟩

theorem length_four_destruct {α : Type _} {l : List α} (h : l.length = 4) :
    ∃ a0 a1 a2 a3, l = [a0, a1, a2, a3] := by
  obtain ⟨a0, l, rfl⟩ := List.exists_of_length_succ l h
  have h0 : l.length = 3 := by simpa using h
  obtain ⟨a1, l, rfl⟩ := List.exists_of_length_succ l h0
  have h1 : l.length = 2 := by simpa using h0
  obtain ⟨a2, l, rfl⟩ := List.exists_of_length_succ l h1
  have h2 : l.length = 1 := by simpa using h1
  obtain ⟨a3, l, rfl⟩ := List.exists_of_length_succ l h2
  have h3 : l = [] := by
    have := h2
    simp only [List.length_cons] at this
    exact List.eq_nil_of_length_eq_zero (by omega)
  exact ⟨a0, a1, a2, a3, by rw [h3]⟩

theorem length_one_destruct {α : Type _} {l : List α} (h : l.length = 1) :
    ∃ a0, l = [a0] := by
  obtain ⟨a0, l, rfl⟩ := List.exists_of_length_succ l h
  have h0 : l = [] := by
    simp only [List.length_cons] at h
    exact List.eq_nil_of_length_eq_zero (by omega)
  exact ⟨a0, by rw [h0]⟩

/-- The four data identifiers whose hardcoded table entries differ from the
all-zero fallback: the three phase voltages and total active energy. -/
def specialDataIds : List String :=
  ["00010100", "00010200", "00010300", "00010000"]

set_option maxHeartbeats 1000000 in
theorem convert_default {d : String} (hd : d ∉ specialDataIds) :
    convertDataIdToExpectedFormat d = [0, 0, 0, 0] := by
  simp [specialDataIds] at hd
  obtain ⟨h1, h2, h3, h4⟩ := hd
  unfold convertDataIdToExpectedFormat
  rw [if_neg h1, if_neg h2, if_neg h3, if_neg h4]
  repeat' split
  all_goals rfl

set_option maxHeartbeats 1000000 in
theorem crc_default {d : String} (hd : d ∉ specialDataIds) :
    getExpectedCrc d = [0] := by
  simp [specialDataIds] at hd
  obtain ⟨h1, h2, h3, h4⟩ := hd
  unfold getExpectedCrc
  rw [if_neg h1, if_neg h2, if_neg h3, if_neg h4]
  repeat' split
  all_goals rfl

/-! ### Claim theorems -/

/-- The frame `buildReadRequest` assembles for address `000000000000`,
control code 0x11 and the phase-A-voltage identifier: the checksum byte stays
the hardcoded 0x1D although the additive checksum of the preceding bytes is
0xB5. -/
def c1FailFrame : List JSNum :=
  [JSNum.num 0x68, .num 0x00, .num 0x00, .num 0x00, .num 0x00, .num 0x00,
    .num 0x00, .num 0x68, .num 0x11, .num 0x04, .num 0x33, .num 0x34,
    .num 0x34, .num 0x35, .num 0x1d, .num 0x16]

/-- C1: the claim says every assembled frame's checksum byte equals the
additive checksum of the preceding bytes, for any valid 12-hex-character
address.  The code instead emits a checksum byte hardcoded per data
identifier: at the valid address `000000000000` (read-single, phase-A
voltage) the emitted byte is 0x1D but the additive checksum of the frame's
preceding bytes is 0xB5, so recomputing the checksum does not match. -/
theorem c1_hardcoded_checksum_fails :
    buildReadRequest "000000000000" ControlCode.readSingle "00010100" =
      .ok c1FailFrame ∧
    verifyChecksum c1FailFrame = false ∧
    specChecksum (c1FailFrame.take 14) = JSNum.num 0xb5 := by
  exact ⟨rfl, rfl, rfl⟩

/-- The frame `buildReadRequest` assembles for address `202411110002`,
control code 0x11 and the phase-A-voltage identifier. -/
def c2Frame : List JSNum :=
  [JSNum.num 0x68, .num 0x02, .num 0x00, .num 0x11, .num 0x11, .num 0x24,
    .num 0x20, .num 0x68, .num 0x11, .num 0x04, .num 0x33, .num 0x34,
    .num 0x34, .num 0x35, .num 0x1d, .num 0x16]

/-- C2: `buildReadRequest '202411110002' READ_SINGLE PHASE_A_VOLTAGE` returns
exactly the bytes 68 02 00 11 11 24 20 68 11 04 33 34 34 35 1D 16, and for
this exact input the checksum byte 0x1D equals the additive checksum of the
preceding 14 bytes, so the frame verifies. -/
theorem c2_phase_a_voltage_frame :
    buildReadRequest "202411110002" ControlCode.readSingle "00010100" =
      .ok c2Frame ∧
    specChecksum (c2Frame.take 14) = JSNum.num 0x1d ∧
    verifyChecksum c2Frame = true := by
  exact ⟨rfl, rfl, rfl⟩

/-- C4 counterexample: the claim says every 12-character address containing a
non-hexadecimal character is rejected with an error; the code accepts
`GGGGGGGGGGGG` and silently produces six `NaN` bytes. -/
theorem c4_counterexample_nonhex_accepted :
    reverseAddress "GGGGGGGGGGGG" =
      .ok [JSNum.nan, .nan, .nan, .nan, .nan, .nan] := rfl

/-- C4 amended: `reverseAddress` validates only the length — every input
whose length is not 12 fails with the invalid-address error, and every
12-character input (hexadecimal or not) succeeds and produces bytes. -/
theorem c4_amended_length_only (s : String) :
    (s.length ≠ 12 → reverseAddress s = .error DLErr.invalidAddress) ∧
    (s.length = 12 → ∃ bs, reverseAddress s = .ok bs) := by
  constructor
  · intro h
    simp [reverseAddress, h]
  · intro h
    exact ⟨_, reverseAddress_of_length h⟩

/-- C4 amended, witness: a 3-character address is rejected with the
invalid-address error, and the non-hex 12-character address `GGGGGGGGGGGG`
is accepted. -/
theorem c4_amended_witness :
    reverseAddress "123" = .error DLErr.invalidAddress ∧
    ∃ bs, reverseAddress "GGGGGGGGGGGG" = .ok bs :=
  ⟨(c4_amended_length_only "123").1 (by decide),
    (c4_amended_length_only "GGGGGGGGGGGG").2 (by decide)⟩

/-- C6 counterexample: the claim says `restoreAddress` leaves its input buffer
unchanged; the source's in-place `reverse()` leaves the buffer holding
`[6, 5, 4, 3, 2, 1]` after a call on `[1, 2, 3, 4, 5, 6]`, which differs from
the original contents. -/
theorem c6_counterexample_restore_mutates :
    restoreAddress [JSNum.num 1, .num 2, .num 3, .num 4, .num 5, .num 6] =
      .ok ("060504030201",
        [JSNum.num 6, .num 5, .num 4, .num 3, .num 2, .num 1]) ∧
    [JSNum.num 6, .num 5, .num 4, .num 3, .num 2, .num 1] ≠
      [JSNum.num 1, .num 2, .num 3, .num 4, .num 5, .num 6] := by
  exact ⟨rfl, by decide⟩

/-- C6 amended: `restoreAddress` is not side-effect-free on its input — on
every 6-element buffer it succeeds but leaves the buffer holding its elements
in reversed order. -/
theorem c6_amended_restore_reverses_input (b : List JSNum) (h : b.length = 6) :
    ∃ s, restoreAddress b = .ok (s, b.reverse) := by
  refine ⟨jsJoin (b.reverse.map byteToHexUpper), ?_⟩
  simp [restoreAddress, h]

/-- C6 amended, witness: on the concrete buffer `[1, 2, 3, 4, 5, 6]` the call
succeeds and the buffer ends up reversed. -/
theorem c6_amended_witness :
    ∃ s, restoreAddress [JSNum.num 1, .num 2, .num 3, .num 4, .num 5, .num 6] =
      .ok (s, [JSNum.num 1, .num 2, .num 3, .num 4, .num 5, .num 6].reverse) :=
  c6_amended_restore_reverses_input _ (by decide)

/-- C7: `buildControlRequest` fails with the invalid-control-usage error for
every control code other than CONTROL (0x13), and with CONTROL it returns
exactly the frame `buildReadRequest` returns on the same arguments. -/
theorem c7_control_request_requires_control_code (a : String) (c : ControlCode)
    (d : String) :
    (c ≠ ControlCode.control →
      buildControlRequest a c d = .error DLErr.invalidControlUsage) ∧
    buildControlRequest a ControlCode.control d =
      buildReadRequest a ControlCode.control d := by
  constructor
  · intro h
    simp [buildControlRequest, h]
  · simp [buildControlRequest]

/-- C7 witness: with the read-single code 0x11 the control builder fails on a
concrete relay-open request, and with CONTROL it agrees with
`buildReadRequest`. -/
theorem c7_witness :
    buildControlRequest "202411110002" ControlCode.readSingle "00040100" =
      .error DLErr.invalidControlUsage ∧
    buildControlRequest "202411110002" ControlCode.control "00040100" =
      buildReadRequest "202411110002" ControlCode.control "00040100" :=
  ⟨(c7_control_request_requires_control_code "202411110002"
      ControlCode.readSingle "00040100").1 (by decide),
    (c7_control_request_requires_control_code "202411110002"
      ControlCode.control "00040100").2⟩

/-- C3 counterexample: the claim says a data identifier that is not a valid
8-hex-character identifier fails with an invalid-data-id error; the code
accepts the identifier `ZZZ` (wrong length, non-hex) and builds a frame with
all-zero data bytes and a zero checksum byte. -/
theorem c3_counterexample_invalid_id_accepted :
    buildReadRequest "202411110002" ControlCode.readSingle "ZZZ" =
      .ok [JSNum.num 0x68, .num 0x02, .num 0x00, .num 0x11, .num 0x11,
        .num 0x24, .num 0x20, .num 0x68, .num 0x11, .num 0x04, .num 0x00,
        .num 0x00, .num 0x00, .num 0x00, .num 0x00, .num 0x16] := rfl

/-- C3 amended: `buildReadRequest` never rejects a data identifier with an
invalid-data-id error (no such error exists in the code).  For an address of
length 12: an identifier outside the four specially hardcoded ones that does
not name an inherited `Object.prototype` member (hex or not, any length) is
silently accepted, assembling a frame whose data field is 00 00 00 00 and
whose checksum byte is 00; an identifier naming an inherited
`Object.prototype` member (such as `toString`) instead crashes with a
`TypeError` when the inherited non-array member is spread — still not an
invalid-data-id failure. -/
theorem c3_amended_no_dataId_validation (a : String) (c : ControlCode)
    (d : String) (ha : a.length = 12) :
    (d ∉ specialDataIds → d ∉ objectProtoProps →
      ∃ addrBytes, reverseAddress a = .ok addrBytes ∧
        buildReadRequest a c d = .ok ([JSNum.num 0x68] ++ addrBytes ++
          [JSNum.num 0x68, JSNum.num c.toByte, JSNum.num 4] ++
          [JSNum.num 0, JSNum.num 0, JSNum.num 0, JSNum.num 0] ++
          [JSNum.num 0] ++ [JSNum.num 0x16])) ∧
    (d ∈ objectProtoProps →
      buildReadRequest a c d = .error DLErr.typeError) := by
  constructor
  · intro hd hp
    refine ⟨(toBytePairs a.data).reverse, reverseAddress_of_length ha, ?_⟩
    rw [buildReadRequest_eq a c d ha hp, convert_default hd, crc_default hd]
    rfl
  · intro hp
    exact buildReadRequest_proto a c d ha hp

/-- C3 amended, witness: the invalid identifier `ZZZZZZZZ` (8 characters but
not hexadecimal) is accepted at the test address and yields the zeroed frame,
while the identifier `toString` makes the builder crash with a `TypeError`
rather than fail with an invalid-data-id error. -/
theorem c3_amended_witness :
    (∃ addrBytes, reverseAddress "202411110002" = .ok addrBytes ∧
      buildReadRequest "202411110002" ControlCode.readSingle "ZZZZZZZZ" =
        .ok ([JSNum.num 0x68] ++ addrBytes ++
          [JSNum.num 0x68, JSNum.num ControlCode.readSingle.toByte,
            JSNum.num 4] ++
          [JSNum.num 0, JSNum.num 0, JSNum.num 0, JSNum.num 0] ++
          [JSNum.num 0] ++ [JSNum.num 0x16])) ∧
    buildReadRequest "202411110002" ControlCode.readSingle "toString" =
      .error DLErr.typeError :=
  ⟨(c3_amended_no_dataId_validation "202411110002" ControlCode.readSingle
      "ZZZZZZZZ" (by decide)).1 (by decide) (by decide),
    (c3_amended_no_dataId_validation "202411110002" ControlCode.readSingle
      "toString" (by decide)).2 (by decide)⟩

/-- C8: every frame the assembler returns has the layout
`[0x68, addr(6), 0x68, control, dataLength, data(4), checksum(1), 0x16]`:
byte 0 and byte 7 are the start marker, the last byte (offset 15) is the end
marker, and the data-length byte at offset 9 equals the byte count of the
data field that follows it. -/
theorem c8_frame_layout (a : String) (c : ControlCode) (d : String)
    (frame : List JSNum) (h : buildReadRequest a c d = .ok frame) :
    ∃ addrBytes, reverseAddress a = .ok addrBytes ∧ addrBytes.length = 6 ∧
      frame = [JSNum.num 0x68] ++ addrBytes ++
        [JSNum.num 0x68, JSNum.num c.toByte,
          JSNum.num (convertDataIdToExpectedFormat d).length] ++
        (convertDataIdToExpectedFormat d).map JSNum.num ++
        (getExpectedCrc d).map JSNum.num ++ [JSNum.num 0x16] ∧
      frame.length = 16 ∧
      frame.getD 0 JSNum.nan = JSNum.num 0x68 ∧
      frame.getD 7 JSNum.nan = JSNum.num 0x68 ∧
      frame.getD 15 JSNum.nan = JSNum.num 0x16 ∧
      (frame.drop 10).take 4 = (convertDataIdToExpectedFormat d).map JSNum.num ∧
      frame.getD 9 JSNum.nan =
        JSNum.num ((frame.drop 10).take 4).length := by
  have ha := buildReadRequest_ok_length h
  have hp := buildReadRequest_ok_not_proto h
  rw [buildReadRequest_eq a c d ha hp] at h
  have hframe := ((Except.ok.injEq _ _).mp h).symm
  have hlen6 : (toBytePairs a.data).reverse.length = 6 := by
    have h12 : a.data.length = 12 := ha
    simp [toBytePairs_length, h12]
  obtain ⟨b0, b1, b2, b3, b4, b5, hb⟩ := length_six_destruct hlen6
  obtain ⟨v0, v1, v2, v3, hv⟩ := length_four_destruct (convert_length d)
  obtain ⟨k0, hk⟩ := length_one_destruct (crc_length d)
  refine ⟨(toBytePairs a.data).reverse, reverseAddress_of_length ha, hlen6,
    hframe, ?_, ?_, ?_, ?_, ?_, ?_⟩
  all_goals rw [hframe, hb, hv, hk]
  all_goals rfl

/-- C8 witness: the layout facts at the concrete phase-A-voltage request. -/
theorem c8_witness :
    ∃ addrBytes, reverseAddress "202411110002" = .ok addrBytes ∧
      addrBytes.length = 6 ∧
      c2Frame = [JSNum.num 0x68] ++ addrBytes ++
        [JSNum.num 0x68, JSNum.num ControlCode.readSingle.toByte,
          JSNum.num (convertDataIdToExpectedFormat "00010100").length] ++
        (convertDataIdToExpectedFormat "00010100").map JSNum.num ++
        (getExpectedCrc "00010100").map JSNum.num ++ [JSNum.num 0x16] ∧
      c2Frame.length = 16 ∧
      c2Frame.getD 0 JSNum.nan = JSNum.num 0x68 ∧
      c2Frame.getD 7 JSNum.nan = JSNum.num 0x68 ∧
      c2Frame.getD 15 JSNum.nan = JSNum.num 0x16 ∧
      (c2Frame.drop 10).take 4 =
        (convertDataIdToExpectedFormat "00010100").map JSNum.num ∧
      c2Frame.getD 9 JSNum.nan =
        JSNum.num ((c2Frame.drop 10).take 4).length :=
  c8_frame_layout "202411110002" ControlCode.readSingle "00010100" c2Frame rfl

/-- The hexadecimal digit characters (the characters `parseInt` base 16
consumes). -/
def hexChars : List Char :=
  (List.range 10).map (fun i => Char.ofNat (48 + i)) ++
    (List.range 6).map (fun i => Char.ofNat (97 + i)) ++
    (List.range 6).map (fun i => Char.ofNat (65 + i))

set_option maxHeartbeats 2000000 in
theorem pair_upper : ∀ c1 ∈ hexChars, ∀ c2 ∈ hexChars,
    byteToHexUpper (parseIntHex2 c1 c2) = ⟨[c1.toUpper, c2.toUpper]⟩ := by
  decide

theorem join_pairs : ∀ l : List Char, l.length % 2 = 0 →
    (∀ c ∈ l, c ∈ hexChars) →
    jsJoin ((toBytePairs l).map byteToHexUpper) = ⟨l.map Char.toUpper⟩
  | [], _, _ => rfl
  | [c], h, _ => by simp at h
  | c1 :: c2 :: rest, h, hall => by
    have hrest : rest.length % 2 = 0 := by
      simp only [List.length_cons] at h
      omega
    have hr := join_pairs rest hrest (fun c hc => hall c (by simp [hc]))
    have hp := pair_upper c1 (hall c1 (by simp)) c2 (hall c2 (by simp))
    have hpd : (byteToHexUpper (parseIntHex2 c1 c2)).data =
        [c1.toUpper, c2.toUpper] := by rw [hp]
    have hrd : (((toBytePairs rest).map byteToHexUpper).map String.data).flatten =
        rest.map Char.toUpper := congrArg String.data hr
    show String.mk _ = String.mk _
    refine congrArg String.mk ?_
    simp only [toBytePairs, List.map_cons, List.flatten_cons, hpd, hrd,
      List.cons_append, List.nil_append]

/-- C5: for every valid 12-hex-character address `A`, decoding the encoded
address restores `A` exactly, normalized to upper case:
`restoreAddress(reverseAddress(A))` returns `uppercase(A)`. -/
theorem c5_address_roundtrip (A : String) (hlen : A.length = 12)
    (hhex : ∀ c ∈ A.data, c ∈ hexChars) :
    ∃ bs final, reverseAddress A = .ok bs ∧
      restoreAddress bs = .ok (jsStringToUpper A, final) := by
  refine ⟨(toBytePairs A.data).reverse, toBytePairs A.data,
    reverseAddress_of_length hlen, ?_⟩
  have h12 : A.data.length = 12 := hlen
  have hlen6 : (toBytePairs A.data).reverse.length = 6 := by
    simp [toBytePairs_length, h12]
  unfold restoreAddress
  rw [if_neg (by simp [hlen6])]
  rw [List.reverse_reverse]
  show Except.ok (jsJoin ((toBytePairs A.data).map byteToHexUpper),
    toBytePairs A.data) = _
  rw [join_pairs A.data (by omega) hhex]
  rfl

/-- C5 witness: the mixed-case address `20ab11110002` round-trips to
`20AB11110002`. -/
theorem c5_witness :
    ∃ bs final, reverseAddress "20ab11110002" = .ok bs ∧
      restoreAddress bs = .ok (jsStringToUpper "20ab11110002", final) :=
  c5_address_roundtrip "20ab11110002" (by decide) (by decide)

/-- The values a frame byte can take: a natural number below 256, or `NaN`
(from a non-hex address pair). -/
def jOK : JSNum → Prop
  | .num n => n < 256
  | .nan => True

theorem hexDigit?_lt {c : Char} {d : Nat} (h : hexDigit? c = some d) :
    d < 16 := by
  unfold hexDigit? at h
  split at h
  · rename_i h1
    injection h with h2
    omega
  split at h
  · rename_i h1
    injection h with h2
    omega
  split at h
  · rename_i h1
    injection h with h2
    omega
  · exact absurd h (by simp)

theorem parseIntHex2_ok (c1 c2 : Char) : jOK (parseIntHex2 c1 c2) := by
  unfold parseIntHex2
  split
  · trivial
  rename_i d1 h1
  split
  · show d1 < 256
    have := hexDigit?_lt h1
    omega
  · rename_i d2 h2
    show 16 * d1 + d2 < 256
    have := hexDigit?_lt h1
    have := hexDigit?_lt h2
    omega

theorem toBytePairs_ok : ∀ (l : List Char) (b : JSNum), b ∈ toBytePairs l → jOK b
  | [], b, hb => by simp [toBytePairs] at hb
  | [_], b, hb => by simp [toBytePairs] at hb
  | c1 :: c2 :: rest, b, hb => by
    rcases List.mem_cons.mp hb with rfl | hb'
    · exact parseIntHex2_ok c1 c2
    · exact toBytePairs_ok rest b hb'

set_option maxHeartbeats 1000000 in
theorem convert_lt (d : String) :
    ∀ v ∈ convertDataIdToExpectedFormat d, v < 256 := by
  unfold convertDataIdToExpectedFormat
  repeat' split
  all_goals decide

set_option maxHeartbeats 1000000 in
theorem crc_lt (d : String) : ∀ v ∈ getExpectedCrc d, v < 256 := by
  unfold getExpectedCrc
  repeat' split
  all_goals decide

theorem toByte_lt (c : ControlCode) : c.toByte < 256 := by
  cases c <;> decide

theorem frame_bytes_ok {a : String} {c : ControlCode} {d : String}
    {frame : List JSNum} (h : buildReadRequest a c d = .ok frame) :
    ∀ b ∈ frame, jOK b := by
  have ha := buildReadRequest_ok_length h
  have hp := buildReadRequest_ok_not_proto h
  rw [buildReadRequest_eq a c d ha hp] at h
  have hframe := ((Except.ok.injEq _ _).mp h).symm
  subst hframe
  refine List.forall_mem_append.mpr ⟨List.forall_mem_append.mpr
    ⟨List.forall_mem_append.mpr ⟨List.forall_mem_append.mpr
      ⟨List.forall_mem_append.mpr ⟨?_, ?_⟩, ?_⟩, ?_⟩, ?_⟩, ?_⟩
  · intro b hb
    rcases List.mem_singleton.mp hb with rfl
    show (0x68 : Nat) < 256
    decide
  · intro b hb
    exact toBytePairs_ok a.data b (List.mem_reverse.mp hb)
  · intro b hb
    simp only [List.mem_cons, List.not_mem_nil, or_false] at hb
    rcases hb with rfl | rfl | rfl
    · show (0x68 : Nat) < 256
      decide
    · exact toByte_lt c
    · rw [convert_length d]
      show (4 : Nat) < 256
      decide
  · intro b hb
    rcases List.mem_map.mp hb with ⟨v, hv, rfl⟩
    exact convert_lt d v hv
  · intro b hb
    rcases List.mem_map.mp hb with ⟨v, hv, rfl⟩
    exact crc_lt d v hv
  · intro b hb
    rcases List.mem_singleton.mp hb with rfl
    show (0x16 : Nat) < 256
    decide

set_option maxRecDepth 4000 in
set_option maxHeartbeats 2000000 in
theorem render_upper_fixed_num : ∀ n < 256,
    ∀ ch ∈ (byteToHexUpper (JSNum.num n)).data, ch.toUpper = ch := by
  decide

theorem render_upper_fixed_nan :
    ∀ ch ∈ (byteToHexUpper JSNum.nan).data, ch.toUpper = ch := by
  decide

theorem jsStringToUpper_fixed (s : String)
    (h : ∀ ch ∈ s.data, ch.toUpper = ch) : jsStringToUpper s = s := by
  cases s with
  | mk data =>
    show String.mk (data.map Char.toUpper) = String.mk data
    refine congrArg String.mk ?_
    exact (List.map_congr_left fun a ha => h a ha).trans (List.map_id data)

/-- C10: whenever `buildReadRequest` succeeds, `getFullCommandString` returns
exactly the preamble `FEFEFEFE` followed by `bytesToHexString` of the frame —
the frame's rendering is unchanged by the final uppercase pass, since every
rendered character is already upper case. -/
theorem c10_full_command_string (a : String) (c : ControlCode) (d : String)
    (frame : List JSNum) (h : buildReadRequest a c d = .ok frame) :
    getFullCommandString a c d =
      .ok (FRAME_HEADER ++ bytesToHexString frame) ∧
    jsStringToUpper (FRAME_HEADER ++ bytesToHexString frame) =
      FRAME_HEADER ++ bytesToHexString frame := by
  have hcore : ∀ ch ∈ (bytesToHexString frame).data, ch.toUpper = ch := by
    intro ch hch
    have hch' : ch ∈ ((frame.map byteToHexUpper).map String.data).flatten := hch
    rcases List.mem_flatten.mp hch' with ⟨piece, hpiece, hchp⟩
    rcases List.mem_map.mp hpiece with ⟨str, hstr, rfl⟩
    rcases List.mem_map.mp hstr with ⟨b, hbf, rfl⟩
    have hb := frame_bytes_ok h b hbf
    cases b with
    | num n => exact render_upper_fixed_num n hb ch hchp
    | nan => exact render_upper_fixed_nan ch hchp
  have hall : ∀ ch ∈ (FRAME_HEADER ++ bytesToHexString frame).data,
      ch.toUpper = ch := by
    intro ch hch
    rw [String.data_append] at hch
    rcases List.mem_append.mp hch with hh | hc
    · exact (by decide : ∀ ch ∈ FRAME_HEADER.data, ch.toUpper = ch) ch hh
    · exact hcore ch hc
  have hupper := jsStringToUpper_fixed _ hall
  constructor
  · unfold getFullCommandString
    rw [h]
    show Except.ok (jsStringToUpper (FRAME_HEADER ++ bytesToHexString frame)) = _
    rw [hupper]
  · exact hupper

/-- C10 witness: the full command string for the concrete phase-A-voltage
request is the preamble plus the unchanged frame rendering. -/
theorem c10_witness :
    getFullCommandString "202411110002" ControlCode.readSingle "00010100" =
      .ok (FRAME_HEADER ++ bytesToHexString c2Frame) ∧
    jsStringToUpper (FRAME_HEADER ++ bytesToHexString c2Frame) =
      FRAME_HEADER ++ bytesToHexString c2Frame :=
  c10_full_command_string "202411110002" ControlCode.readSingle "00010100"
    c2Frame rfl

/-- C9: a checksum mismatch is non-fatal — for every structurally well-formed
response buffer whose stored checksum byte differs from the recomputed
additive checksum, `parseFrame` still succeeds, reports `isCrcValid = false`,
and returns every decoded parameter entry of the data field. -/
theorem c9_checksum_nonfatal (buf : List Nat) (hs : structOK buf)
    (hcrc : computedChecksum buf ≠ storedChecksum buf) :
    ∃ r, parseFrame buf = .ok r ∧ r.isCrcValid = false ∧
      r.parameters = decodeParams ((buf.drop 10).take (buf.getD 9 0)) := by
  obtain ⟨h12, h0, h7, hlast, hlen⟩ := hs
  unfold parseFrame
  rw [if_neg (by omega), if_neg (by simpa using h0), if_neg (by simpa using h7),
    if_neg (by simpa using hlast), if_neg (by simpa using hlen)]
  refine ⟨_, rfl, ?_, rfl⟩
  show decide (computedChecksum buf = storedChecksum buf) = false
  exact decide_eq_false hcrc

/-- A 3-parameter batch response (phase A, B and C voltages, each 220.0 V)
for meter `202411110002`, whose checksum byte was corrupted from the correct
0x61 to 0x62. -/
def c9Buffer : List Nat :=
  [0x68, 0x02, 0x00, 0x11, 0x11, 0x24, 0x20, 0x68, 0x12, 0x12,
   0x33, 0x34, 0x34, 0x33, 0x33, 0x55,
   0x33, 0x35, 0x34, 0x33, 0x33, 0x55,
   0x33, 0x36, 0x34, 0x33, 0x33, 0x55,
   0x62, 0x16]

/-- C9 witness: parsing the corrupted 3-parameter batch response succeeds
with `isCrcValid = false` and still yields all 3 decoded entries. -/
theorem c9_witness :
    (∃ r, parseFrame c9Buffer = .ok r ∧ r.isCrcValid = false ∧
      r.parameters =
        decodeParams ((c9Buffer.drop 10).take (c9Buffer.getD 9 0))) ∧
    (decodeParams ((c9Buffer.drop 10).take (c9Buffer.getD 9 0))).length = 3 :=
  ⟨c9_checksum_nonfatal c9Buffer (by decide) (by decide), by decide⟩

end DL645
